import Mathlib

/-!
Verification of the MIDI clock → JACK transport bridge
(`src/midi_clock_sync.cpp` and the extended variant `src/unnamed/part_001`).

Shallow embedding conventions:
* C++ `double` arithmetic is modelled exactly over `ℚ` (the spec's formulas
  are stated in exact decimal arithmetic).
* Time points (`std::chrono::high_resolution_clock::time_point`) are modelled
  as integer microsecond timestamps, since the code only ever uses
  `duration_cast<microseconds>(a - b).count()`.
* `jack_nframes_t` is a 32-bit unsigned integer: frame arithmetic is `ℕ`
  reduced `% 2^32`.
* Atomic loads/stores by a single sequential event thread are modelled as
  plain record reads/writes.
* JACK API calls (`jack_transport_start/stop/reposition`) only affect the
  external server; their effect on this program's state is the adjacent
  store to `transport_rolling` / `current_frame`, which is what we model.
  `g_jack_client` is assumed non-null (the program exits during startup
  otherwise), and the unused `transport_start_time` field is omitted.
-/

/-- Truncation toward zero, the semantics of a C++ `(int32_t)` cast applied to
a non-NaN `double` (overflow aside, which never occurs at the values used). -/
def ratTrunc (q : ℚ) : ℤ :=
  if 0 ≤ q then ⌊q⌋ else -⌊-q⌋

/-- C `fmod x y = x - y * trunc (x / y)`: remainder with the sign of `x`. -/
def fmodQ (x y : ℚ) : ℚ :=
  x - y * (ratTrunc (x / y) : ℚ)

/-- C++ `std::round`: rounding half away from zero. -/
def roundQ (q : ℚ) : ℚ :=
  if 0 ≤ q then (⌊q + 1/2⌋ : ℤ) else -(⌊-q + 1/2⌋ : ℤ)

/-! Configuration constants, `midi_clock_sync.cpp` lines 17–22. -/

def PULSES_PER_QUARTER : ℤ := 24

def MIN_BPM : ℚ := 20

def MAX_BPM : ℚ := 300

def SMOOTHING_FACTOR : ℚ := 0.3

def BPM_SNAP_THRESHOLD : ℚ := 0.15

def BPM_STABILITY_COUNT : ℤ := 3

/-- The global `BPMState` struct (`midi_clock_sync.cpp` lines 31–57).
`last_pulse_time` is an integer microsecond timestamp; `sample_rate` is the
JACK sample rate queried once at startup. -/
structure BPMState where
  current_bpm : ℚ
  pulse_count : ℤ
  last_pulse_time : ℤ
  transport_rolling : Bool
  first_clock_received : Bool
  last_snapped_bpm : ℚ
  stability_counter : ℤ
  measurement_count : ℤ
  bar : ℤ
  beat : ℤ
  tick : ℤ
  current_frame : ℕ
  sample_rate : ℕ
deriving Repr, DecidableEq

/-- Field initializers of `BPMState` (`midi_clock_sync.cpp` lines 31–57):
120 BPM, zero counters, position 1:1:0, frame 0, default rate 48000. -/
def initState : BPMState :=
  { current_bpm := 120
    pulse_count := 0
    last_pulse_time := 0
    transport_rolling := false
    first_clock_received := false
    last_snapped_bpm := 0
    stability_counter := 0
    measurement_count := 0
    bar := 1
    beat := 1
    tick := 0
    current_frame := 0
    sample_rate := 48000 }

/-- C++ `std::min` on doubles: `b < a ? b : a`. -/
def cppMin (a b : ℚ) : ℚ := if b < a then b else a

/-- C++ `std::max` on doubles: `a < b ? b : a`. -/
def cppMax (a b : ℚ) : ℚ := if a < b then b else a

/-- The clamp `std::max(MIN_BPM, std::min(MAX_BPM, raw_bpm))`
(`midi_clock_sync.cpp` line 266). -/
def clampBPM (raw_bpm : ℚ) : ℚ :=
  cppMax MIN_BPM (cppMin MAX_BPM raw_bpm)

/-- The adaptive-smoothing block of `calculate_and_set_bpm`
(`midi_clock_sync.cpp` lines 272–282): selects the blend of the stored
`current` BPM and the clamped `raw` BPM from `measurement_count` and the
jump size. -/
def smoothedOf (current raw_bpm : ℚ) (mcount : ℤ) : ℚ :=
  if mcount < 5 ∨ |raw_bpm - current| > 10 then
    current * 0.1 + raw_bpm * 0.9
  else if mcount < 10 ∨ |raw_bpm - current| > 3 then
    current * 0.5 + raw_bpm * 0.5
  else
    current * (1 - SMOOTHING_FACTOR) + raw_bpm * SMOOTHING_FACTOR

/-- `snap_bpm` (`midi_clock_sync.cpp` lines 189–209).  The first C++
parameter is anonymous and unused, so it is dropped here.  Reads and writes
`last_snapped_bpm` and `stability_counter`; returns the updated state and the
returned BPM. -/
def snap_bpm (s : BPMState) (smoothed_bpm : ℚ) : BPMState × ℚ :=
  let nearest_int := roundQ smoothed_bpm
  let distance := |smoothed_bpm - nearest_int|
  if distance ≤ BPM_SNAP_THRESHOLD then
    let s' :=
      if |s.last_snapped_bpm - nearest_int| < 0.5 then
        { s with stability_counter := s.stability_counter + 1 }
      else
        { s with stability_counter := 1, last_snapped_bpm := nearest_int }
    if s'.stability_counter ≥ BPM_STABILITY_COUNT then
      (s', nearest_int)
    else
      (s', smoothed_bpm)
  else
    ({ s with stability_counter := 0 }, smoothed_bpm)

/-- `calculate_and_set_bpm` (`midi_clock_sync.cpp` lines 236–311), called once
per `SND_SEQ_EVENT_CLOCK` with the current time `now` in microseconds.
The second component instruments the local `raw_bpm` variable: `some r` when
a measurement is taken with clamped raw BPM `r`, `none` when the pulse only
advances the counter or the sample is discarded. -/
def calculate_and_set_bpm (s : BPMState) (now : ℤ) : BPMState × Option ℚ :=
  if !s.first_clock_received then
    ({ s with first_clock_received := true
              last_pulse_time := now
              pulse_count := 0
              transport_rolling := true }, none)
  else
    let count := s.pulse_count + 1
    if count ≥ PULSES_PER_QUARTER then
      let elapsed := now - s.last_pulse_time
      if elapsed > 0 then
        let raw_bpm := clampBPM (60000000 / (elapsed : ℚ))
        let smoothed_bpm := smoothedOf s.current_bpm raw_bpm s.measurement_count
        let p := snap_bpm s smoothed_bpm
        ({ p.1 with current_bpm := p.2
                    measurement_count := p.1.measurement_count + 1
                    pulse_count := 0
                    last_pulse_time := now }, some raw_bpm)
      else
        ({ s with pulse_count := 0, last_pulse_time := now }, none)
    else
      ({ s with pulse_count := count }, none)

/-- The MIDI events dispatched by `process_midi_clock`; a clock pulse carries
its arrival time in microseconds. -/
inductive MidiEvent where
  | clock (now : ℤ)
  | start
  | stop
  | cont
deriving Repr, DecidableEq

/-- `process_midi_clock` (`midi_clock_sync.cpp` lines 316–370): event
dispatch for clock / start / stop / continue. -/
def process_midi_clock (s : BPMState) (ev : MidiEvent) : BPMState × Option ℚ :=
  match ev with
  | .clock now => calculate_and_set_bpm s now
  | .start =>
      ({ s with current_frame := 0
                bar := 1
                beat := 1
                tick := 0
                transport_rolling := true
                pulse_count := 0
                measurement_count := 0
                first_clock_received := false }, none)
  | .stop =>
      ({ s with transport_rolling := false
                pulse_count := 0
                first_clock_received := false }, none)
  | .cont =>
      ({ s with transport_rolling := true }, none)

/-- `jack_process_callback` (`midi_clock_sync.cpp` lines 64–74): per-block
frame advance, only while the transport is rolling.  `jack_nframes_t`
addition wraps at `2^32`. -/
def jack_process_callback (s : BPMState) (nframes : ℕ) : BPMState :=
  if s.transport_rolling then
    { s with current_frame := (s.current_frame + nframes) % 2 ^ 32 }
  else
    s

/-- The fields of `jack_position_t` written by the timebase callback that the
claims are about. -/
structure JackPosition where
  frame : ℕ
  bar : ℤ
  beat : ℤ
  tick : ℤ
  beats_per_minute : ℚ
deriving Repr, DecidableEq

/-- `jack_timebase_callback` (`midi_clock_sync.cpp` lines 79–136):
`host_frame` is the `pos->frame` supplied by the JACK server, `new_pos` the
position-discontinuity flag.  Returns the updated program state and the
position structure handed back to the host. -/
def jack_timebase_callback (s : BPMState) (host_frame : ℕ) (new_pos : Bool) :
    BPMState × JackPosition :=
  let bpm := s.current_bpm
  let p : BPMState × ℕ :=
    if new_pos then (s, s.current_frame)
    else ({ s with current_frame := host_frame }, host_frame)
  let frame := p.2
  let seconds_elapsed : ℚ := (frame : ℚ) / (s.sample_rate : ℚ)
  let beats_elapsed := (bpm / 60) * seconds_elapsed
  let beats_per_bar : ℚ := 4
  let total_bars := beats_elapsed / beats_per_bar
  let bar := ratTrunc total_bars + 1
  let beat_in_bar := fmodQ beats_elapsed beats_per_bar
  let beat := ratTrunc beat_in_bar + 1
  let tick_in_beat := fmodQ beat_in_bar 1 * 1920
  let tick := ratTrunc tick_in_beat
  ({ p.1 with bar := bar, beat := beat, tick := tick },
   { frame := frame
     bar := bar
     beat := beat
     tick := tick
     beats_per_minute := bpm })

/-- `reset_transport` (`src/unnamed/part_001` lines 99–130): stop, rewind to
frame 0 / position 1:1:0, clear the measurement counters. -/
def reset_transport (s : BPMState) : BPMState :=
  { s with transport_rolling := false
           current_frame := 0
           bar := 1
           beat := 1
           tick := 0
           pulse_count := 0
           measurement_count := 0
           first_clock_received := false }

/-- Iterate `calculate_and_set_bpm` over a list of pulse timestamps. -/
def runClocks (s : BPMState) (ts : List ℤ) : BPMState :=
  ts.foldl (fun s t => (calculate_and_set_bpm s t).1) s

/-- The position formulas exactly as the spec words them (`spec.md` §4.2):
`seconds = frame / sample_rate`; `beats_elapsed = bpm/60 * seconds`;
`bar = floor(beats_elapsed / 4) + 1`; `beat_in_bar = beats_elapsed mod 4`
(real modulus); `beat = floor(beat_in_bar) + 1`;
`tick = floor(frac(beat_in_bar) * 1920)`.  Written for comparison with
`jack_timebase_callback`, which is translated from the source. -/
def spec_query_bbt (frame : ℕ) (bpm sample_rate : ℚ) : ℤ × ℤ × ℤ :=
  let seconds := (frame : ℚ) / sample_rate
  let beats_elapsed := bpm / 60 * seconds
  let bar := ⌊beats_elapsed / 4⌋ + 1
  let beat_in_bar := beats_elapsed - 4 * ⌊beats_elapsed / 4⌋
  let beat := ⌊beat_in_bar⌋ + 1
  let tick := ⌊Int.fract beat_in_bar * 1920⌋
  (bar, beat, tick)

/-! Helper lemmas. -/

/-- Truncation toward zero agrees with `Int.floor` on non-negative inputs. -/
theorem ratTrunc_of_nonneg {q : ℚ} (h : 0 ≤ q) : ratTrunc q = ⌊q⌋ := by
  simp [ratTrunc, h]

/-- For non-negative `x` and positive `y`, C `fmod` is the real modulus
`x - y·⌊x/y⌋`. -/
theorem fmodQ_of_nonneg {x y : ℚ} (hx : 0 ≤ x) (hy : 0 < y) :
    fmodQ x y = x - y * ⌊x / y⌋ := by
  rw [fmodQ, ratTrunc_of_nonneg (div_nonneg hx hy.le)]

/-- The real modulus of a non-negative value is non-negative. -/
theorem real_mod_nonneg {x y : ℚ} (hy : 0 < y) : 0 ≤ x - y * ⌊x / y⌋ := by
  have h := Int.floor_le (x / y)
  have h2 : y * (⌊x / y⌋ : ℚ) ≤ y * (x / y) := by
    exact mul_le_mul_of_nonneg_left h hy.le
  rw [mul_div_cancel₀ x (ne_of_gt hy)] at h2
  linarith

/-- Advancing a stopped transport changes nothing. -/
theorem jack_process_callback_stopped {s : BPMState} (h : s.transport_rolling = false)
    (n : ℕ) : jack_process_callback s n = s := by
  simp [jack_process_callback, h]

/-- Any number of block advances of a stopped transport changes nothing. -/
theorem foldl_jack_process_callback_stopped {s : BPMState}
    (h : s.transport_rolling = false) (ns : List ℕ) :
    ns.foldl jack_process_callback s = s := by
  induction ns with
  | nil => rfl
  | cons n ns ih => simpa [jack_process_callback_stopped h] using ih

/-! Claim theorems. -/

/-- C2 counterexample: with the internal frame counter at 500 and the host
relocating to frame 100 (`new_pos` set), the callback hands frame 500 back to
the host and keeps its internal counter at 500 — it does not honor the
externally supplied frame 100, nor resynchronize its counter to it. -/
theorem c2_claim_counterexample :
    (jack_timebase_callback { initState with current_frame := 500 } 100 true).2.frame = 500 ∧
    (jack_timebase_callback { initState with current_frame := 500 } 100 true).1.current_frame = 500 ∧
    (500 : ℕ) ≠ 100 := by
  refine ⟨rfl, rfl, by decide⟩

/-- C2 (amended): when the host signals a position discontinuity (`new_pos`
set), the callback overrides the host-supplied frame with its internally
tracked frame for that invocation, and its internal frame counter is left
unchanged.  (The resynchronization to the host frame happens on the
`new_pos = 0` invocations instead.) -/
theorem c2_relocation_amended (s : BPMState) (host_frame : ℕ) :
    (jack_timebase_callback s host_frame true).2.frame = s.current_frame ∧
    (jack_timebase_callback s host_frame true).1.current_frame = s.current_frame := by
  exact ⟨rfl, rfl⟩

/-- C10: on every query with the relocation flag clear (`new_pos = 0`), the
callback overwrites the internal frame counter with the host-supplied frame
and computes the position from that host frame, discarding whatever value the
advance callback had accumulated in the counter. -/
theorem c10_query_frame_resync (s : BPMState) (host_frame : ℕ) :
    (jack_timebase_callback s host_frame false).1.current_frame = host_frame ∧
    (jack_timebase_callback s host_frame false).2.frame = host_frame := by
  exact ⟨rfl, rfl⟩

/-- C9: a Start event, any number of per-block advances, then
`reset_transport` restores `(frame, bar, beat, tick) = (0, 1, 1, 0)`. -/
theorem c9_reset_round_trip (s : BPMState) (ns : List ℕ) :
    (reset_transport (ns.foldl jack_process_callback
        (process_midi_clock s .start).1)).current_frame = 0 ∧
    (reset_transport (ns.foldl jack_process_callback
        (process_midi_clock s .start).1)).bar = 1 ∧
    (reset_transport (ns.foldl jack_process_callback
        (process_midi_clock s .start).1)).beat = 1 ∧
    (reset_transport (ns.foldl jack_process_callback
        (process_midi_clock s .start).1)).tick = 0 := by
  exact ⟨rfl, rfl, rfl, rfl⟩

/-- C6: the per-block advance moves the frame counter (modulo the 32-bit
width of `jack_nframes_t`) only while the transport is rolling; when stopped
it is the identity.  In particular a Stop event received while rolling at
frame 10000 stops the transport and leaves the frame at 10000 through any
subsequent advances. -/
theorem c6_advance_only_rolling :
    (∀ (s : BPMState) (n : ℕ), s.transport_rolling = false →
      jack_process_callback s n = s) ∧
    (∀ (s : BPMState) (n : ℕ), s.transport_rolling = true →
      (jack_process_callback s n).current_frame = (s.current_frame + n) % 2 ^ 32) ∧
    (∀ s : BPMState, s.transport_rolling = true → s.current_frame = 10000 →
      (process_midi_clock s .stop).1.transport_rolling = false ∧
      ∀ ns : List ℕ,
        (ns.foldl jack_process_callback (process_midi_clock s .stop).1).current_frame
          = 10000) := by
  refine ⟨fun s n h => jack_process_callback_stopped h n,
          fun s n h => by simp [jack_process_callback, h],
          fun s h hf => ⟨rfl, fun ns => ?_⟩⟩
  rw [foldl_jack_process_callback_stopped rfl ns]
  simpa [process_midi_clock] using hf

/-- Witness for `c6_advance_only_rolling` at concrete inputs: a stopped
state is unchanged by an advance of 512 frames, and after a Stop at frame
10000 two further advances leave the frame at 10000. -/
theorem c6_advance_only_rolling_witness :
    jack_process_callback { initState with transport_rolling := false } 512
      = { initState with transport_rolling := false } ∧
    ([512, 256].foldl jack_process_callback
        (process_midi_clock
          { initState with transport_rolling := true, current_frame := 10000 }
          .stop).1).current_frame = 10000 :=
  ⟨c6_advance_only_rolling.1 _ 512 rfl,
   (c6_advance_only_rolling.2.2 _ rfl rfl).2 [512, 256]⟩

/-- C7: on the estimate-boundary pulse (pulse counter reaching 24), a
non-positive elapsed time discards the sample: `current_bpm`,
`measurement_count` and the snap state are untouched (the result is `s`
itself except for the two reset fields), the pulse counter is reset to 0,
the boundary timestamp moves to `now`, and no measurement is produced. -/
theorem c7_nonpositive_elapsed_discarded (s : BPMState) (now : ℤ)
    (h1 : s.first_clock_received = true)
    (h2 : 24 ≤ s.pulse_count + 1)
    (h3 : now - s.last_pulse_time ≤ 0) :
    calculate_and_set_bpm s now = ({ s with pulse_count := 0, last_pulse_time := now }, none) := by
  simp [calculate_and_set_bpm, h1, PULSES_PER_QUARTER, h2, not_lt.mpr h3]

/-- Witness for `c7_nonpositive_elapsed_discarded`: a state at the boundary
(pulse counter 23) whose timestamp equals the new pulse's timestamp. -/
theorem c7_nonpositive_elapsed_discarded_witness :
    calculate_and_set_bpm
        { initState with first_clock_received := true, pulse_count := 23, last_pulse_time := 5 } 5
      = ({ initState with first_clock_received := true, pulse_count := 0, last_pulse_time := 5 },
         none) := by
  have h := c7_nonpositive_elapsed_discarded
    { initState with first_clock_received := true, pulse_count := 23, last_pulse_time := 5 } 5
    rfl (by norm_num) (by norm_num)
  simpa using h

/-- Appending one pulse to a run applies one more step. -/
theorem runClocks_append_single (s : BPMState) (ts : List ℤ) (t : ℤ) :
    runClocks s (ts ++ [t]) = (calculate_and_set_bpm (runClocks s ts) t).1 := by
  simp [runClocks, List.foldl_append]

/-- A measurement step: at the window boundary with positive elapsed time,
the instrumented output is the clamped raw BPM `60000000 / elapsed`. -/
theorem calc_step_measurement (s : BPMState) (now : ℤ)
    (h1 : s.first_clock_received = true) (h2 : 24 ≤ s.pulse_count + 1)
    (h3 : s.last_pulse_time < now) :
    (calculate_and_set_bpm s now).2
      = some (clampBPM (60000000 / ((now : ℚ) - (s.last_pulse_time : ℚ)))) := by
  simp [calculate_and_set_bpm, h1, PULSES_PER_QUARTER, h2, h3]

/-- After `n` evenly spaced pulses (`1 ≤ n ≤ 24`) at times `0, T, …, (n-1)·T`
from the fresh initial state, the estimator has only been arming itself: the
pulse counter is at `n - 1`, the window anchor is the first pulse's
timestamp, and no measurement has been taken. -/
theorem runClocks_range (T : ℤ) : ∀ n : ℕ, 1 ≤ n → n ≤ 24 →
    runClocks initState ((List.range n).map fun i : ℕ => T * (i : ℤ)) =
      { initState with first_clock_received := true
                       transport_rolling := true
                       pulse_count := (n : ℤ) - 1
                       last_pulse_time := 0 } := by
  intro n
  induction n with
  | zero => omega
  | succ n ih =>
    intro _ hle
    rcases Nat.eq_zero_or_pos n with hn | hn
    · subst hn
      have h1 : ((List.range 1).map fun i : ℕ => T * (i : ℤ)) = [0] := by
        rw [show List.range 1 = [0] from rfl, List.map_singleton]
        norm_num
      rw [h1]
      show (calculate_and_set_bpm initState 0).1 = _
      simp [calculate_and_set_bpm, initState]
    · have ih' := ih hn (by omega)
      rw [List.range_succ, List.map_append, List.map_singleton, runClocks_append_single, ih']
      have hlt : ¬ (PULSES_PER_QUARTER ≤ (n : ℤ) - 1 + 1) := by
        simp only [PULSES_PER_QUARTER]
        omega
      simp only [calculate_and_set_bpm, initState, Bool.not_true, Bool.false_eq_true,
        if_false, ge_iff_le, hlt, if_true]
      simp only [BPMState.mk.injEq]
      norm_num

/-- C1 counterexample: feeding 24 evenly-spaced pulses 25000 µs apart from a
fresh state produces no measurement at all (the counter is still arming), and
the first measurement — which arrives on the 25th pulse, at 600000 µs — has
raw BPM `100 = 60000000/(24·25000)`, not `60000000/(23·25000)` as the claim
states. -/
theorem c1_claim_counterexample :
    (runClocks initState
        ((List.range 24).map fun i : ℕ => 25000 * (i : ℤ))).measurement_count = 0 ∧
    (calculate_and_set_bpm
        (runClocks initState ((List.range 24).map fun i : ℕ => 25000 * (i : ℤ)))
        600000).2 = some 100 ∧
    (100 : ℚ) ≠ 60000000 / (23 * 25000) := by
  have h := runClocks_range 25000 24 (by norm_num) (by norm_num)
  rw [h]
  refine ⟨rfl, ?_, by norm_num⟩
  rw [calc_step_measurement _ 600000 rfl (by norm_num) (by norm_num)]
  norm_num [clampBPM, cppMin, cppMax, MIN_BPM, MAX_BPM, initState]

/-- C1 (amended): for any sequence of evenly-spaced clock pulses with
inter-pulse interval `T > 0` microseconds from a fresh state, the first 24
pulses produce no sample, and the first sample — produced on the 25th pulse —
has `raw_bpm = 60000000 / (24·T)` (the elapsed window spans the 24 gaps from
the first pulse to the 25th), clamped to `[20, 300]`. -/
theorem c1_first_sample_amended (T : ℤ) (hT : 0 < T) :
    (runClocks initState
        ((List.range 24).map fun i : ℕ => T * (i : ℤ))).measurement_count = 0 ∧
    (calculate_and_set_bpm
        (runClocks initState ((List.range 24).map fun i : ℕ => T * (i : ℤ)))
        (T * 24)).2 = some (clampBPM (60000000 / (24 * (T : ℚ)))) := by
  have h := runClocks_range T 24 (by norm_num) (by norm_num)
  rw [h]
  refine ⟨rfl, ?_⟩
  rw [calc_step_measurement _ (T * 24) rfl (by norm_num) (by positivity)]
  push_cast
  ring_nf

/-- Witness for `c1_first_sample_amended` at `T = 20833` µs (≈120.0 BPM
clock spacing). -/
theorem c1_first_sample_amended_witness :
    (runClocks initState
        ((List.range 24).map fun i : ℕ => 20833 * (i : ℤ))).measurement_count = 0 ∧
    (calculate_and_set_bpm
        (runClocks initState ((List.range 24).map fun i : ℕ => 20833 * (i : ℤ)))
        (20833 * 24)).2 = some (clampBPM (60000000 / (24 * (20833 : ℚ)))) :=
  c1_first_sample_amended 20833 (by norm_num)

/-- C5: for any state with non-negative tempo and positive sample rate, the
query's bar/beat/tick agree with the spec's formulas (`spec_query_bbt`);
in particular frame 24000 at 120 BPM and 48000 Hz yields bar 1, beat 2,
tick 0, and frame 0 yields bar 1, beat 1, tick 0 for any tempo and any
positive sample rate. -/
theorem c5_query_bbt :
    (∀ (s : BPMState) (host_frame : ℕ), 0 ≤ s.current_bpm → 0 < s.sample_rate →
      ((jack_timebase_callback s host_frame false).2.bar,
       (jack_timebase_callback s host_frame false).2.beat,
       (jack_timebase_callback s host_frame false).2.tick)
        = spec_query_bbt host_frame s.current_bpm (s.sample_rate : ℚ)) ∧
    ((jack_timebase_callback { initState with current_bpm := 120, sample_rate := 48000 }
        24000 false).2.bar = 1 ∧
     (jack_timebase_callback { initState with current_bpm := 120, sample_rate := 48000 }
        24000 false).2.beat = 2 ∧
     (jack_timebase_callback { initState with current_bpm := 120, sample_rate := 48000 }
        24000 false).2.tick = 0) ∧
    (∀ s : BPMState, 0 < s.sample_rate →
      (jack_timebase_callback s 0 false).2.bar = 1 ∧
      (jack_timebase_callback s 0 false).2.beat = 1 ∧
      (jack_timebase_callback s 0 false).2.tick = 0) := by
  refine ⟨?_, ?_, ?_⟩
  · intro s host_frame hbpm hsr
    simp only [jack_timebase_callback, spec_query_bbt, Bool.false_eq_true, if_false]
    have hb : (0:ℚ) ≤ s.current_bpm / 60 * ((host_frame : ℚ) / (s.sample_rate : ℚ)) := by
      have h1 : (0:ℚ) ≤ s.current_bpm / 60 := by positivity
      have h2 : (0:ℚ) ≤ (host_frame : ℚ) / (s.sample_rate : ℚ) := by positivity
      exact mul_nonneg h1 h2
    set beats := s.current_bpm / 60 * ((host_frame : ℚ) / (s.sample_rate : ℚ)) with hbe
    have hmod := real_mod_nonneg (x := beats) (y := 4) (by norm_num)
    rw [fmodQ_of_nonneg hb (by norm_num)]
    rw [fmodQ_of_nonneg hmod one_pos]
    rw [ratTrunc_of_nonneg (div_nonneg hb (by norm_num))]
    rw [ratTrunc_of_nonneg hmod]
    rw [div_one, one_mul]
    have hfr : (0:ℚ) ≤ beats - 4 * ⌊beats / 4⌋ - ⌊beats - 4 * (⌊beats / 4⌋ : ℚ)⌋ := by
      have h := Int.floor_le (beats - 4 * (⌊beats / 4⌋ : ℚ))
      linarith
    rw [ratTrunc_of_nonneg (mul_nonneg hfr (by norm_num : (0:ℚ) ≤ 1920))]
    rw [Int.self_sub_floor]
  · refine ⟨?_, ?_, ?_⟩ <;>
      norm_num [jack_timebase_callback, ratTrunc, fmodQ, initState]
  · intro s hsr
    refine ⟨?_, ?_, ?_⟩ <;>
      norm_num [jack_timebase_callback, ratTrunc, fmodQ]

/-- Witness for `c5_query_bbt`: the formula part at 240 BPM, 48000 Hz, frame
36000, and the frame-0 part at the initial state. -/
theorem c5_query_bbt_witness :
    ((jack_timebase_callback { initState with current_bpm := 240, sample_rate := 48000 }
        36000 false).2.bar,
     (jack_timebase_callback { initState with current_bpm := 240, sample_rate := 48000 }
        36000 false).2.beat,
     (jack_timebase_callback { initState with current_bpm := 240, sample_rate := 48000 }
        36000 false).2.tick)
      = spec_query_bbt 36000 240 48000 ∧
    (jack_timebase_callback initState 0 false).2.bar = 1 :=
  ⟨c5_query_bbt.1 _ 36000 (by norm_num) (by norm_num),
   (c5_query_bbt.2.2 initState (by norm_num [initState])).1⟩

/-- C4: on every non-discarded measurement, the smoothed value fed to the
snap step is exactly the spec's blend of the stored `current_bpm` and the
clamped raw BPM: weight 0.9 on raw when `measurement_count < 5` or the jump
exceeds 10 BPM, else weight 0.5 when `measurement_count < 10` or the jump
exceeds 3 BPM, else weight 0.3. -/
theorem c4_adaptive_smoothing (s : BPMState) (now : ℤ)
    (h1 : s.first_clock_received = true)
    (h2 : 24 ≤ s.pulse_count + 1)
    (h3 : s.last_pulse_time < now) :
    (calculate_and_set_bpm s now).1.current_bpm
      = (snap_bpm s
          (let raw := clampBPM (60000000 / ((now : ℚ) - (s.last_pulse_time : ℚ)))
           if s.measurement_count < 5 ∨ |raw - s.current_bpm| > 10 then
             0.1 * s.current_bpm + 0.9 * raw
           else if s.measurement_count < 10 ∨ |raw - s.current_bpm| > 3 then
             0.5 * s.current_bpm + 0.5 * raw
           else
             0.7 * s.current_bpm + 0.3 * raw)).2 := by
  simp only [calculate_and_set_bpm, h1, Bool.not_true, Bool.false_eq_true, if_false,
    PULSES_PER_QUARTER, ge_iff_le, h2, if_true, gt_iff_lt, sub_pos, h3, Int.cast_sub]
  congr 1
  simp only [smoothedOf, SMOOTHING_FACTOR]
  split_ifs
  · ring_nf
  · ring_nf
  · ring_nf

/-- Witness for `c4_adaptive_smoothing`: the boundary state with pulse
counter 23 and window anchor 0, pulse at 600000 µs. -/
theorem c4_adaptive_smoothing_witness :
    (calculate_and_set_bpm
        { initState with first_clock_received := true, pulse_count := 23 }
        600000).1.current_bpm
      = (snap_bpm { initState with first_clock_received := true, pulse_count := 23 }
          (let raw := clampBPM (60000000 / ((600000 : ℚ) - ((0 : ℤ) : ℚ)))
           if (0 : ℤ) < 5 ∨ |raw - 120| > 10 then
             0.1 * 120 + 0.9 * raw
           else if (0 : ℤ) < 10 ∨ |raw - 120| > 3 then
             0.5 * 120 + 0.5 * raw
           else
             0.7 * 120 + 0.3 * raw)).2 :=
  c4_adaptive_smoothing
    { initState with first_clock_received := true, pulse_count := 23 }
    600000 rfl (by norm_num) (by norm_num [initState])

/-- A qualifying snap input whose nearest integer matches the tracked one
increments the stability counter and changes nothing else in the state. -/
theorem snap_bpm_state_incr {s : BPMState} {x : ℚ}
    (hq : |x - roundQ x| ≤ BPM_SNAP_THRESHOLD)
    (hm : |s.last_snapped_bpm - roundQ x| < 0.5) :
    (snap_bpm s x).1 = { s with stability_counter := s.stability_counter + 1 } := by
  simp only [snap_bpm, hq, if_true, hm]
  split_ifs <;> rfl

/-- With the stability counter at 2 or more, a qualifying matching input
returns the nearest integer. -/
theorem snap_bpm_result_locked {s : BPMState} {x : ℚ}
    (hq : |x - roundQ x| ≤ BPM_SNAP_THRESHOLD)
    (hm : |s.last_snapped_bpm - roundQ x| < 0.5)
    (hc : 2 ≤ s.stability_counter) :
    (snap_bpm s x).2 = roundQ x := by
  have h3 : BPM_STABILITY_COUNT ≤ s.stability_counter + 1 := by
    simp only [BPM_STABILITY_COUNT]
    omega
  simp [snap_bpm, hq, hm, h3]

/-- C3 counterexample: with tracked integer 120 and stability counter 2, the
smoothed value 120.15 deviates from its nearest integer by exactly the 0.15
threshold; the claim says a deviation of at least 0.15 resets the stability
run, but the code still counts it as qualifying: the counter advances to 3
and the snapped integer 120 is returned instead of the smoothed value. -/
theorem c3_claim_counterexample :
    BPM_SNAP_THRESHOLD ≤ |(2403/20 : ℚ) - roundQ (2403/20)| ∧
    (snap_bpm { initState with last_snapped_bpm := 120, stability_counter := 2 }
        (2403/20)).1.stability_counter = 3 ∧
    (snap_bpm { initState with last_snapped_bpm := 120, stability_counter := 2 }
        (2403/20)).2 = 120 ∧
    (2403/20 : ℚ) ≠ 120 := by
  have hr : roundQ (2403/20 : ℚ) = 120 := by
    norm_num [roundQ]
  refine ⟨by rw [hr]; norm_num [BPM_SNAP_THRESHOLD, abs_of_nonneg], ?_, ?_, by norm_num⟩ <;>
    norm_num [snap_bpm, hr, BPM_SNAP_THRESHOLD, BPM_STABILITY_COUNT, initState, abs_of_nonneg]

/-- C3 (amended): (a) a smoothed value deviating from its nearest integer by
MORE than 0.15 resets the stability counter to 0 and is returned unchanged;
(b) a qualifying value (deviation ≤ 0.15) whose nearest integer differs from
the tracked one by at least 0.5 sets the counter to 1 and retargets the
tracker; (c) three consecutive qualifying values with the same nearest
integer `B` matching the tracked target (within 0.5) make the third return
exactly `B`, with the counter at 3 or more and the target unchanged; (d) once
the counter is at 3 or more, every further qualifying matching value returns
the nearest integer and keeps the counter at 3 or more. -/
theorem c3_snap_stability_amended :
    (∀ (s : BPMState) (x : ℚ), BPM_SNAP_THRESHOLD < |x - roundQ x| →
        snap_bpm s x = ({ s with stability_counter := 0 }, x)) ∧
    (∀ (s : BPMState) (x : ℚ), |x - roundQ x| ≤ BPM_SNAP_THRESHOLD →
        0.5 ≤ |s.last_snapped_bpm - roundQ x| →
        (snap_bpm s x).1.stability_counter = 1 ∧
        (snap_bpm s x).1.last_snapped_bpm = roundQ x) ∧
    (∀ (s : BPMState) (x1 x2 x3 : ℚ) (B : ℤ), 0 ≤ s.stability_counter →
        |s.last_snapped_bpm - (B : ℚ)| < 0.5 →
        roundQ x1 = (B : ℚ) → |x1 - (B : ℚ)| ≤ BPM_SNAP_THRESHOLD →
        roundQ x2 = (B : ℚ) → |x2 - (B : ℚ)| ≤ BPM_SNAP_THRESHOLD →
        roundQ x3 = (B : ℚ) → |x3 - (B : ℚ)| ≤ BPM_SNAP_THRESHOLD →
        (snap_bpm (snap_bpm (snap_bpm s x1).1 x2).1 x3).2 = (B : ℚ) ∧
        3 ≤ (snap_bpm (snap_bpm (snap_bpm s x1).1 x2).1 x3).1.stability_counter ∧
        (snap_bpm (snap_bpm (snap_bpm s x1).1 x2).1 x3).1.last_snapped_bpm
          = s.last_snapped_bpm) ∧
    (∀ (s : BPMState) (x : ℚ), 3 ≤ s.stability_counter →
        |s.last_snapped_bpm - roundQ x| < 0.5 →
        |x - roundQ x| ≤ BPM_SNAP_THRESHOLD →
        (snap_bpm s x).2 = roundQ x ∧
        3 ≤ (snap_bpm s x).1.stability_counter ∧
        (snap_bpm s x).1.last_snapped_bpm = s.last_snapped_bpm) := by
  refine ⟨?_, ?_, ?_, ?_⟩
  · intro s x h
    simp only [snap_bpm]
    rw [if_neg (not_le.mpr h)]
  · intro s x hq hm
    simp [snap_bpm, hq, not_lt.mpr hm, BPM_STABILITY_COUNT]
  · intro s x1 x2 x3 B hc hm hx1 hq1 hx2 hq2 hx3 hq3
    have i1 := snap_bpm_state_incr (s := s) (x := x1)
      (by rw [hx1]; exact hq1) (by rw [hx1]; exact hm)
    rw [i1]
    have i2 := snap_bpm_state_incr
      (s := { s with stability_counter := s.stability_counter + 1 }) (x := x2)
      (by rw [hx2]; exact hq2) (by rw [hx2]; exact hm)
    rw [i2]
    set s2 : BPMState :=
      { s with stability_counter := s.stability_counter + 1 + 1 } with hs2
    have hres := snap_bpm_result_locked (s := s2) (x := x3)
      (by rw [hx3]; exact hq3) (by rw [hx3]; exact hm)
      (by simp only [hs2]; omega)
    have i3 := snap_bpm_state_incr (s := s2) (x := x3)
      (by rw [hx3]; exact hq3) (by rw [hx3]; exact hm)
    refine ⟨by rw [hres, hx3], ?_, ?_⟩
    · rw [i3]
      simp only [hs2]
      omega
    · rw [i3]
  · intro s x hc hm hq
    have hres := snap_bpm_result_locked hq hm (by omega)
    have hst := snap_bpm_state_incr hq hm
    refine ⟨hres, ?_, ?_⟩
    · rw [hst]
      simp only
      omega
    · rw [hst]

/-- Witness for `c3_snap_stability_amended`: the reset branch at smoothed
value 120.4 (deviation 0.4 from 120), and the three-measurement lock-on at
smoothed value 120.1 against tracked integer 120. -/
theorem c3_snap_stability_amended_witness :
    snap_bpm initState (602/5) = ({ initState with stability_counter := 0 }, 602/5) ∧
    (snap_bpm (snap_bpm (snap_bpm { initState with last_snapped_bpm := 120 }
        (1201/10)).1 (1201/10)).1 (1201/10)).2 = ((120 : ℤ) : ℚ) := by
  have hr1 : roundQ (602/5 : ℚ) = 120 := by norm_num [roundQ]
  have hr2 : roundQ (1201/10 : ℚ) = ((120 : ℤ) : ℚ) := by norm_num [roundQ]
  constructor
  · exact c3_snap_stability_amended.1 initState (602/5)
      (by
        rw [hr1, show (602/5 : ℚ) - 120 = 2/5 by norm_num,
          abs_of_nonneg (by norm_num : (0:ℚ) ≤ 2/5)]
        norm_num [BPM_SNAP_THRESHOLD])
  · exact (c3_snap_stability_amended.2.2.1
      { initState with last_snapped_bpm := 120 } (1201/10) (1201/10) (1201/10) 120
      (by norm_num [initState])
      (by norm_num [initState])
      hr2 (by norm_num [BPM_SNAP_THRESHOLD, abs_of_nonneg])
      hr2 (by norm_num [BPM_SNAP_THRESHOLD, abs_of_nonneg])
      hr2 (by norm_num [BPM_SNAP_THRESHOLD, abs_of_nonneg])).1

/-- The clamp always lands in `[20, 300]`. -/
theorem clampBPM_mem (r : ℚ) : 20 ≤ clampBPM r ∧ clampBPM r ≤ 300 := by
  simp only [clampBPM, cppMax, cppMin, MIN_BPM, MAX_BPM]
  split_ifs <;> constructor <;> linarith

/-- Rounding half away from zero keeps a value of `[20, 300]` in range. -/
theorem roundQ_mem {x : ℚ} (h1 : 20 ≤ x) (h2 : x ≤ 300) :
    20 ≤ roundQ x ∧ roundQ x ≤ 300 := by
  have hx : (0:ℚ) ≤ x := by linarith
  simp only [roundQ, if_pos hx]
  constructor
  · have h : (20:ℤ) ≤ ⌊x + 1/2⌋ := by
      apply Int.le_floor.mpr
      push_cast
      linarith
    exact_mod_cast h
  · have hf : (⌊x + 1/2⌋ : ℚ) ≤ x + 1/2 := Int.floor_le _
    have h301 : (⌊x + 1/2⌋ : ℚ) < 301 := by linarith
    have h : ⌊x + 1/2⌋ < (301:ℤ) := by exact_mod_cast h301
    have h' : ⌊x + 1/2⌋ ≤ (300:ℤ) := by omega
    exact_mod_cast h'

/-- Every smoothing branch is a convex blend: values in `[20, 300]` stay in
`[20, 300]`. -/
theorem smoothedOf_mem {c r : ℚ} (hc1 : 20 ≤ c) (hc2 : c ≤ 300)
    (hr1 : 20 ≤ r) (hr2 : r ≤ 300) (m : ℤ) :
    20 ≤ smoothedOf c r m ∧ smoothedOf c r m ≤ 300 := by
  simp only [smoothedOf, SMOOTHING_FACTOR]
  split_ifs <;> constructor <;> nlinarith [hc1, hc2, hr1, hr2]

/-- The snap step returns either the smoothed value or its rounding, so it
keeps `[20, 300]` membership. -/
theorem snap_bpm_mem (s : BPMState) {x : ℚ} (hx1 : 20 ≤ x) (hx2 : x ≤ 300) :
    20 ≤ (snap_bpm s x).2 ∧ (snap_bpm s x).2 ≤ 300 := by
  have hr := roundQ_mem hx1 hx2
  simp only [snap_bpm]
  split_ifs <;> first | exact hr | exact ⟨hx1, hx2⟩

/-- One clock pulse preserves `current_bpm ∈ [20, 300]`. -/
theorem calc_preserves_range {s : BPMState} (h1 : 20 ≤ s.current_bpm)
    (h2 : s.current_bpm ≤ 300) (now : ℤ) :
    20 ≤ (calculate_and_set_bpm s now).1.current_bpm ∧
      (calculate_and_set_bpm s now).1.current_bpm ≤ 300 := by
  simp only [calculate_and_set_bpm]
  split_ifs with ha hb hc
  · exact ⟨h1, h2⟩
  · have hcl := clampBPM_mem (60000000 / ((now - s.last_pulse_time : ℤ) : ℚ))
    have hsm := smoothedOf_mem h1 h2 hcl.1 hcl.2 s.measurement_count
    exact snap_bpm_mem s hsm.1 hsm.2
  · exact ⟨h1, h2⟩
  · exact ⟨h1, h2⟩

/-- C8: from the initial state (120 BPM), after any sequence of clock pulses
with any timestamps, the stored `current_bpm` stays within `[20, 300]`. -/
theorem c8_bpm_range_invariant (ts : List ℤ) :
    20 ≤ (runClocks initState ts).current_bpm ∧
      (runClocks initState ts).current_bpm ≤ 300 := by
  suffices h : ∀ s : BPMState, 20 ≤ s.current_bpm → s.current_bpm ≤ 300 →
      20 ≤ (runClocks s ts).current_bpm ∧ (runClocks s ts).current_bpm ≤ 300 by
    exact h initState (by norm_num [initState]) (by norm_num [initState])
  induction ts with
  | nil => exact fun s h1 h2 => ⟨h1, h2⟩
  | cons t ts ih =>
    intro s h1 h2
    have hp := calc_preserves_range h1 h2 t
    exact ih _ hp.1 hp.2
